import Mathlib

/-!
Verification development for the transit-analytics dashboard repository.

The repository is a collection of Streamlit dashboard scripts sharing a
data-preparation pipeline: chunked CSV ingestion with lookup-table joins and
derived ratios (`init.py`, `sample.py`), Excel ingestion with coercion and
cleanup (`latest.py`, `latest_drilled_down.py`), filter composition over the
loaded table, and per-group aggregate rates (`time_analytics.py`).

Numeric cells of a pandas frame are modelled as `Option ℚ` (`none` is a
missing or non-numeric cell, i.e. NaN after coercion); results of float
division are modelled by `FloatVal`, which distinguishes finite values from
NaN and the two infinities the way IEEE division does.  Date parsing
(`pd.to_datetime`) is kept abstract as a function parameter returning `none`
exactly on the strings pandas fails to parse.
-/

namespace Dash

/-- Result of a pandas float computation: a finite rational, NaN, or ±∞. -/
inductive FloatVal where
  | fin : ℚ → FloatVal
  | nan : FloatVal
  | posInf : FloatVal
  | negInf : FloatVal
deriving DecidableEq, BEq

/-- IEEE-style division on float values, as pandas performs it columnwise:
a nonzero finite value divided by zero gives a signed infinity, `0/0` gives
NaN, and NaN propagates through either operand. -/
def FloatVal.div : FloatVal → FloatVal → FloatVal
  | .fin a, .fin b =>
      if b = 0 then (if a = 0 then .nan else if 0 < a then .posInf else .negInf)
      else .fin (a / b)
  | .nan, _ => .nan
  | _, .nan => .nan
  | .posInf, .fin b => if b < 0 then .negInf else .posInf
  | .negInf, .fin b => if b < 0 then .posInf else .negInf
  | .fin _, .posInf => .fin 0
  | .fin _, .negInf => .fin 0
  | .posInf, _ => .nan
  | .negInf, _ => .nan

/-- A numeric cell viewed as a float: a missing cell is NaN. -/
def FloatVal.ofOpt : Option ℚ → FloatVal
  | some q => .fin q
  | none => .nan

/-- Python truthiness of a float: only `0.0` is falsy; NaN and ±∞ are truthy. -/
def FloatVal.truthy : FloatVal → Bool
  | .fin q => q ≠ 0
  | _ => true

/-- Columnwise float division of two numeric cells. -/
def fdiv (a b : Option ℚ) : FloatVal := FloatVal.div (.ofOpt a) (.ofOpt b)

/-- Model of `Series.replace(0, 1)`: an exact zero becomes one; NaN and every other
value are untouched. -/
def replaceZeroOne : Option ℚ → Option ℚ
  | some q => if q = 0 then some 1 else some q
  | none => none

/-- Model of `Series.sum()` with pandas defaults: NaN cells are skipped. -/
def osum (l : List (Option ℚ)) : ℚ := (l.filterMap id).sum

/-- Recognizer for `+∞`. -/
def FloatVal.isPosInf : FloatVal → Bool
  | .posInf => true
  | _ => false

/-- Recognizer for `-∞`. -/
def FloatVal.isNegInf : FloatVal → Bool
  | .negInf => true
  | _ => false

/-- Model of `Series.mean()` with pandas defaults: NaN cells are skipped, an all-NaN
or empty series has mean NaN, and an infinity drags the mean to ±∞. -/
def fmean (l : List FloatVal) : FloatVal :=
  let fins := l.filterMap (fun x => match x with | .fin q => some q | _ => none)
  if l.any FloatVal.isPosInf && l.any FloatVal.isNegInf then .nan
  else if l.any FloatVal.isPosInf then .posInf
  else if l.any FloatVal.isNegInf then .negInf
  else if fins.isEmpty then .nan
  else .fin (fins.sum / fins.length)

/-! ## `init.py` / `sample.py`: chunked CSV loader with lookup joins

`load_data` in `init.py` reads `cleaned_master.csv` in chunks and, per chunk:
maps `ticket_type_short_code` and `bus_service_id` through dictionaries built
from the two lookup CSVs, parses `ticket_date + " " + ticket_time` with
`pd.to_datetime` (no `errors="coerce"`, so an unparseable string raises),
computes `revenue_per_km` and `passengers_per_km` dividing by
`travelled_KM.replace(0, 1)`, and only afterwards replaces `travelled_KM`
with the `(schedule_no, route_id)` override from `form_four_trip-6.csv`
when the key is present. -/

/-- One raw CSV record of `cleaned_master.csv` as `init.py` consumes it. -/
structure RawRow where
  schedule_no : String
  route_id : String
  route_no : String
  ticket_type_short_code : String
  bus_service_id : String
  ticket_date : String
  ticket_time : String
  px_total_amount : Option ℚ
  px_count : Option ℚ
  travelled_KM : Option ℚ
deriving DecidableEq

/-- The lookup tables `init.py` builds once: `ticket_type.csv`,
`service_type.csv`, and the `(schedule_no, route_id) → kms` override map from
`form_four_trip-6.csv`. -/
structure Lookups where
  ticket_types : List (String × String)
  service_types : List (String × String)
  kms_mapping : List ((String × String) × ℚ)

/-- A record of the unified table produced by `init.py`. -/
structure NormRow where
  schedule_no : String
  route_id : String
  route_no : String
  ticket_type : Option String
  service_type : Option String
  ticket_datetime : ℤ
  revenue_per_km : FloatVal
  passengers_per_km : FloatVal
  travelled_KM : Option ℚ
  px_total_amount : Option ℚ
  px_count : Option ℚ
deriving DecidableEq

/-- The per-record transformations of `init.py` lines 99-128, applied
identically to the first and to every later chunk.  `Series.map(dict)`
yields a missing value (`none`) when the key is absent from the dictionary;
`pd.to_datetime` without `errors="coerce"` raises on an unparseable string,
modelled by returning `none` for the whole record.  The derived ratios are
computed from the raw `travelled_KM` (zero replaced by one); the distance
override is applied after them. -/
def normalizeRow (lk : Lookups) (parseDT : String → Option ℤ) (r : RawRow) :
    Option NormRow :=
  match parseDT (r.ticket_date ++ " " ++ r.ticket_time) with
  | none => none
  | some t =>
      some { schedule_no := r.schedule_no
             route_id := r.route_id
             route_no := r.route_no
             ticket_type := List.lookup r.ticket_type_short_code lk.ticket_types
             service_type := List.lookup r.bus_service_id lk.service_types
             ticket_datetime := t
             revenue_per_km := fdiv r.px_total_amount (replaceZeroOne r.travelled_KM)
             passengers_per_km := fdiv r.px_count (replaceZeroOne r.travelled_KM)
             travelled_KM :=
               match List.lookup (r.schedule_no, r.route_id) lk.kms_mapping with
               | some v => some v
               | none => r.travelled_KM
             px_total_amount := r.px_total_amount
             px_count := r.px_count }

/-- All-or-nothing columnwise application: `some` of the image when `f`
succeeds on every element, `none` as soon as it fails on one.  This is how
a raising pandas columnwise operation behaves for a whole chunk. -/
def mapOpt {α β : Type} (f : α → Option β) : List α → Option (List β)
  | [] => some []
  | x :: xs =>
      match f x, mapOpt f xs with
      | some y, some ys => some (y :: ys)
      | _, _ => none

/-- Processing of one chunk by `init.py`: since `pd.to_datetime` raises on
the first unparseable `ticket_datetime` string, a single bad record aborts
the whole chunk with an exception and no records of it are loaded. -/
def initChunk (lk : Lookups) (parseDT : String → Option ℤ)
    (rows : List RawRow) : Except String (List NormRow) :=
  match mapOpt (normalizeRow lk parseDT) rows with
  | some out => Except.ok out
  | none => Except.error "ParserError: unable to parse ticket_datetime"

/-- The function `load_data` of `init.py`: concatenate the processed chunks in arrival
order and return the result.  No validation runs on the concatenated table;
the only failure modes are the date-parse exception and the `NameError`
raised when the reader yields no chunk at all (the loop body never binds
`master`). -/
def initLoad (lk : Lookups) (parseDT : String → Option ℤ)
    (chunks : List (List RawRow)) : Except String (List NormRow) :=
  if chunks.isEmpty then Except.error "NameError: master is not defined"
  else
    match mapOpt (normalizeRow lk parseDT) chunks.flatten with
    | some out => Except.ok out
    | none => Except.error "ParserError: unable to parse ticket_datetime"

/-- The global filter of `init.py` lines 170-178: rows are restricted to the
inclusive datetime range, and to the selected service types only when the
`service_types` multiselect is non-empty (`if service_types:`).  A record
whose `service_type` is missing never satisfies `isin`. -/
def init_filtered_df (df : List NormRow) (d0 d1 : ℤ)
    (service_types : List String) : List NormRow :=
  if service_types.isEmpty then
    df.filter (fun r =>
      decide (d0 ≤ r.ticket_datetime) && decide (r.ticket_datetime ≤ d1))
  else
    df.filter (fun r =>
      (decide (d0 ≤ r.ticket_datetime) && decide (r.ticket_datetime ≤ d1)) &&
      (match r.service_type with
       | some s => service_types.contains s
       | none => false))

/-- The global filter of `sample.py` lines 34-38: the ticket-type and
service-type `isin` predicates are applied unconditionally, together with
the inclusive datetime range.  An empty selection therefore matches no
record at all. -/
def sample_filtered_df (df : List NormRow) (d0 d1 : ℤ)
    (ticket_filter service_filter : List String) : List NormRow :=
  df.filter (fun r =>
    (match r.ticket_type with
     | some s => ticket_filter.contains s
     | none => false) &&
    (match r.service_type with
     | some s => service_filter.contains s
     | none => false) &&
    (decide (d0 ≤ r.ticket_datetime) && decide (r.ticket_datetime ≤ d1)))

/-- The value `avg_passenger_km` of `init.py` line 481. -/
def avg_passenger_km (rows : List NormRow) : FloatVal :=
  fmean (rows.map (fun r => r.passengers_per_km))

/-- The value `avg_revenue_km` of `init.py` line 482. -/
def avg_revenue_km (rows : List NormRow) : FloatVal :=
  fmean (rows.map (fun r => r.revenue_per_km))

/-- The value `efficiency_score` of `init.py` line 483:
`avg_revenue_km / avg_passenger_km if avg_passenger_km else 0`.  The guard
is Python truthiness, so an exact zero average yields `0`, while a NaN
average (empty subset) is truthy and flows into the division. -/
def efficiency_score (rows : List NormRow) : FloatVal :=
  if (avg_passenger_km rows).truthy then
    (avg_revenue_km rows).div (avg_passenger_km rows)
  else .fin 0

/-! ## `latest.py` / `latest_drilled_down.py`: Excel loader and filter engine

`load_data` in `latest.py` reads the whole Excel sheet, parses
`running_date` with `errors="coerce"` and drops unparseable rows, derives
month and day-of-week names, coerces the critical numeric columns with
`pd.to_numeric(errors="coerce")`, computes `Epkm = total_amount /
travel_distance` replacing ±∞ and NaN by `0` and rounding to two decimals,
fills missing `total_count` with `0`, drops every row with a remaining NaN
in a critical column, and stops with an error message when nothing is left. -/

/-- Calendar data pandas derives from a parsed `running_date`: the month
number (`dt.month`), the ISO calendar week (`dt.isocalendar().week`), the
day-of-week index (`dt.day_name` source), and a linear ordinal used for
comparisons.  `pd.to_datetime` itself stays abstract; a parse function
produces one of these per date string. -/
structure DateParts where
  month : Nat
  week : Nat
  day : Nat
  ord : ℤ
deriving DecidableEq

/-- Model of `dt.month_name()`: the English month name of a month number. -/
def monthName : Nat → String
  | 1 => "January" | 2 => "February" | 3 => "March" | 4 => "April"
  | 5 => "May" | 6 => "June" | 7 => "July" | 8 => "August"
  | 9 => "September" | 10 => "October" | 11 => "November" | 12 => "December"
  | _ => ""

/-- Model of `dt.day_name()`: the English weekday name of a day index (0 = Monday). -/
def dayName : Nat → String
  | 0 => "Monday" | 1 => "Tuesday" | 2 => "Wednesday" | 3 => "Thursday"
  | 4 => "Friday" | 5 => "Saturday" | 6 => "Sunday"
  | _ => ""

/-- Model of `datetime.strptime(m, "%B").month`: recover the month number from its
English name. -/
def strptimeMonth (s : String) : Option Nat :=
  (List.range 12).findSome? (fun i =>
    if monthName (i + 1) = s then some (i + 1) else none)

/-- Model of `Series.round(2)` modelled over rationals (ties round away from zero
upward; the floating-point tie-to-even detail is not modelled). -/
def round2 (q : ℚ) : ℚ := ((⌊q * 100 + 1 / 2⌋ : ℤ) : ℚ) / 100

/-- Model of `Epkm.replace([np.inf, -np.inf], 0).fillna(0)`: keep a finite ratio,
turn NaN and both infinities into zero. -/
def finPart : FloatVal → ℚ
  | .fin q => q
  | _ => 0

/-- One raw row of the Excel sheet `city_dashboard_datewise_data.xlsx` as
`latest.py` consumes it: `running_date` is still a string, the numeric
columns are numeric cells or missing/non-numeric (`none`). -/
structure XRow where
  running_date : String
  color_line : String
  route_no : String
  schedule_number : String
  total_amount : Option ℚ
  travel_distance : Option ℚ
  trip_number : Option ℚ
  total_count : Option ℚ
deriving DecidableEq

/-- One row of the cleaned table `latest.py` returns: the date parsed, the
critical numeric columns known finite, `total_count` filled with zero when
missing, and the cleaned `Epkm`. -/
structure LRow where
  date : DateParts
  month : String
  day_of_week : String
  service_type : String
  route_no : String
  schedule_number : String
  total_amount : ℚ
  travel_distance : ℚ
  trip_number : ℚ
  total_count : ℚ
  Epkm : ℚ
deriving DecidableEq

/-- The row-level effect of the cleaning pipeline in `load_data` of
`latest.py` (lines 59-91): `none` when the row is dropped, either because
`running_date` fails to parse (`errors="coerce"` then
`dropna(subset=["running_date"])`) or because one of `total_amount`,
`travel_distance`, `trip_number` is missing or non-numeric after coercion
(the final `dropna`).  On a kept row, `Epkm` is the division with ±∞ and
NaN replaced by `0` then rounded, and `total_count` is filled with `0`. -/
def cleanRow (parseD : String → Option DateParts) (r : XRow) : Option LRow :=
  match parseD r.running_date with
  | none => none
  | some d =>
      match r.total_amount, r.travel_distance, r.trip_number with
      | some ta, some td, some tn =>
          some { date := d
                 month := monthName d.month
                 day_of_week := dayName d.day
                 service_type := r.color_line
                 route_no := r.route_no
                 schedule_number := r.schedule_number
                 total_amount := ta
                 travel_distance := td
                 trip_number := tn
                 total_count := r.total_count.getD 0
                 Epkm := round2 (finPart (FloatVal.div (.fin ta) (.fin td))) }
      | _, _, _ => none

/-- The whole-table cleaning of `load_data` in `latest.py`: row order is
preserved, dropped rows simply disappear. -/
def latestClean (parseD : String → Option DateParts) (rows : List XRow) :
    List LRow :=
  rows.filterMap (cleanRow parseD)

/-- The function `load_data` of `latest.py`: after cleaning, an empty table stops the
app with an error message (`st.error` + `st.stop`); otherwise the cleaned
table is returned. -/
def latestLoad (parseD : String → Option DateParts) (rows : List XRow) :
    Except String (List LRow) :=
  let c := latestClean parseD rows
  if c.isEmpty then Except.error "No valid data remaining after processing"
  else Except.ok c

/-- The week drill-down construction of `latest.py` lines 134-147: the
`Week of Month` multiselect (whose chosen value is `weekSel`) exists only
when exactly one month is selected and the table has rows for it; in every
other predicate set `week_filter` stays `None`. -/
def week_filter (df : List LRow) (month_filter : List String)
    (weekSel : List Nat) : Option (List Nat) :=
  if month_filter.length == 1 &&
      !(df.filter (fun r => month_filter.contains r.month)).isEmpty then
    match month_filter with
    | [m] =>
        match strptimeMonth m with
        | some n =>
            if (df.filter (fun r => r.date.month == n)).isEmpty then none
            else some weekSel
        | none => none
    | _ => none
  else none

/-- The combined predicate of `latest.py` lines 172-193: each dimension is
ANDed in only when its selection is non-empty, and the week constraint only
when the drill-down widget exists and is non-empty (`if week_filter is not
None and week_filter:`). -/
def filter_condition (month_filter : List String)
    (weekF : Option (List Nat))
    (day_filter service_filter route_filter : List String) (r : LRow) : Bool :=
  (month_filter.isEmpty || month_filter.contains r.month) &&
  (match weekF with
   | some wf => wf.isEmpty || wf.contains r.date.week
   | none => true) &&
  (day_filter.isEmpty || day_filter.contains r.day_of_week) &&
  (service_filter.isEmpty || service_filter.contains r.service_type) &&
  (route_filter.isEmpty || route_filter.contains r.route_no)

/-- The table `filtered_df` of `latest.py` line 197: the table filtered by the
combined condition, with the week constraint built by `week_filter`. -/
def latest_filtered_df (df : List LRow) (month_filter : List String)
    (weekSel : List Nat)
    (day_filter service_filter route_filter : List String) : List LRow :=
  df.filter
    (filter_condition month_filter (week_filter df month_filter weekSel)
      day_filter service_filter route_filter)

/-! ## `time_analytics.py`: hourly aggregate rate -/

/-- The columns of a `cleaned_master.csv` row that the hourly EPKM
aggregation of `time_analytics.py` reads. -/
structure TRow where
  hour : Nat
  px_total_amount : Option ℚ
  travelled_KM : Option ℚ
deriving DecidableEq

/-- Insert a number into an ascending list. -/
def insertAsc (n : Nat) : List Nat → List Nat
  | [] => [n]
  | m :: ms => if n ≤ m then n :: m :: ms else m :: insertAsc n ms

/-- Ascending insertion sort on naturals. -/
def sortNat (l : List Nat) : List Nat := l.foldr insertAsc []

/-- The group keys of `groupby("hour")` with pandas defaults: the distinct
hours in ascending order. -/
def hourKeys (rows : List TRow) : List Nat :=
  sortNat ((rows.map (fun r => r.hour)).dedup)

/-- The aggregation `time_epkm` of `time_analytics.py` lines 101-104: group by hour, sum
revenue and distance per group (NaN skipped), and divide the aggregates
with no denominator guard, so a zero total distance produces an infinity
or NaN. -/
def time_epkm (rows : List TRow) : List (Nat × FloatVal) :=
  (hourKeys rows).map (fun h =>
    let g := rows.filter (fun r => r.hour == h)
    (h, FloatVal.div (.fin (osum (g.map (fun r => r.px_total_amount))))
          (.fin (osum (g.map (fun r => r.travelled_KM))))))

/-! ## Concrete fixtures

A concrete date parser, lookup tables and records used to instantiate the
theorems below on closed inputs. -/

/-- A concrete instance of the abstract `pd.to_datetime` on combined
date-time strings: it parses the two timestamps the fixture records carry
and fails on everything else. -/
def parseA : String → Option ℤ := fun s =>
  if s = "2024-01-05 10:00:00" then some 5
  else if s = "2024-01-06 11:00:00" then some 6
  else none

/-- Concrete calendar data for 2024-01-05 (a Friday, ISO week 1). -/
def dpJan5 : DateParts := { month := 1, week := 1, day := 4, ord := 5 }

/-- A concrete instance of the abstract `pd.to_datetime(errors="coerce")`
on `running_date` strings. -/
def parseD_A : String → Option DateParts := fun s =>
  if s = "2024-01-05" then some dpJan5 else none

/-- Concrete lookup tables: one ticket type, one service type, one
distance override for the composite key `("SCH1", "R1")`. -/
def lkA : Lookups :=
  { ticket_types := [("A1", "Adult")]
    service_types := [("S1", "EV INTERSTATE")]
    kms_mapping := [(("SCH1", "R1"), 20)] }

/-- A record with fare 100 and travelled distance 0, no override key. -/
def rZero : RawRow :=
  { schedule_no := "SCH9", route_id := "R9", route_no := "R9"
    ticket_type_short_code := "A1", bus_service_id := "S1"
    ticket_date := "2024-01-05", ticket_time := "10:00:00"
    px_total_amount := some 100, px_count := some 5, travelled_KM := some 0 }

/-- A record with fare 100 and a missing travelled distance. -/
def rMiss : RawRow :=
  { rZero with travelled_KM := none }

/-- A record with fare 100, raw distance 10 and an override key mapping to
distance 20. -/
def rOv : RawRow :=
  { rZero with schedule_no := "SCH1", route_id := "R1",
               travelled_KM := some 10 }

/-- A record whose ticket-type code `Z9` has no entry in the lookup table. -/
def rZ9 : RawRow :=
  { rZero with ticket_type_short_code := "Z9", travelled_KM := some 10 }

/-- A record whose date/time fields do not parse. -/
def rBadDate : RawRow :=
  { rZero with ticket_date := "garbage" }

/-- A record with a missing (non-numeric) fare and otherwise valid fields. -/
def rNoFare : RawRow :=
  { rZero with px_total_amount := none, travelled_KM := some 10 }

/-- The unified-table record `init.py` produces from `rZero`, spelled out. -/
def nrA : NormRow :=
  { schedule_no := "SCH9", route_id := "R9", route_no := "R9"
    ticket_type := some "Adult", service_type := some "EV INTERSTATE"
    ticket_datetime := 5, revenue_per_km := .fin 100
    passengers_per_km := .fin 5, travelled_KM := some 0
    px_total_amount := some 100, px_count := some 5 }

/-- The unified-table record `init.py` produces from `rNoFare`. -/
def nrNoFare : NormRow :=
  { schedule_no := "SCH9", route_id := "R9", route_no := "R9"
    ticket_type := some "Adult", service_type := some "EV INTERSTATE"
    ticket_datetime := 5, revenue_per_km := .nan
    passengers_per_km := .fin (1 / 2), travelled_KM := some 10
    px_total_amount := none, px_count := some 5 }

/-- A unified-table record whose passenger density is exactly zero. -/
def nrP0 : NormRow :=
  { nrA with passengers_per_km := .fin 0, revenue_per_km := .fin 3 }

/-- A valid Excel row: fare 100, distance 10, trip 1, five passengers. -/
def xGood : XRow :=
  { running_date := "2024-01-05", color_line := "Red", route_no := "R1"
    schedule_number := "S1", total_amount := some 100
    travel_distance := some 10, trip_number := some 1, total_count := some 5 }

/-- An Excel row whose `running_date` does not parse. -/
def xBadDate : XRow :=
  { xGood with running_date := "nonsense" }

/-- An Excel row with zero travel distance. -/
def xZeroDist : XRow :=
  { xGood with travel_distance := some 0 }

/-- The cleaned row `latest.py` produces from `xGood`, spelled out. -/
def lGood : LRow :=
  { date := dpJan5, month := "January", day_of_week := "Friday"
    service_type := "Red", route_no := "R1", schedule_number := "S1"
    total_amount := 100, travel_distance := 10, trip_number := 1
    total_count := 5, Epkm := 10 }

/-- An hourly-aggregation row with revenue 5 and zero distance at hour 0. -/
def tZero : TRow :=
  { hour := 0, px_total_amount := some 5, travelled_KM := some 0 }

/-! ## Helper lemmas -/

/-- The function `mapOpt` fails as soon as `f` fails on any member of the list. -/
theorem mapOpt_eq_none_of_mem {α β : Type} (f : α → Option β) :
    ∀ (l : List α) (a : α), a ∈ l → f a = none → mapOpt f l = none := by
  intro l
  induction l with
  | nil => intro a ha; cases ha
  | cons x xs ih =>
      intro a ha hfa
      rcases List.mem_cons.mp ha with h | h
      · subst h
        simp [mapOpt, hfa]
      · cases hx : f x with
        | none => simp [mapOpt, hx]
        | some y => simp [mapOpt, hx, ih a h hfa]

/-- Deduplicating a non-empty constant list leaves a single element. -/
theorem dedup_replicate_succ (n : ℕ) (h : ℕ) :
    (List.replicate (n + 1) h).dedup = [h] := by
  induction n with
  | zero => simp
  | succ m ih =>
      rw [List.replicate_succ, List.dedup_cons_of_mem (by simp), ih]

/-! ## Claims -/

/-- Claim C1, counterexample.  In `sample.py` the ticket-type and
service-type predicates are applied with `isin` unconditionally, so the
predicate set with both selections empty (and a date range covering the
whole table) returns the empty subset, not the full table: an empty
constraint there means "match nothing". -/
theorem empty_selection_matches_nothing :
    sample_filtered_df [nrA] 0 10 [] [] = [] ∧
    sample_filtered_df [nrA] 0 10 [] [] ≠ [nrA] := by
  constructor <;> simp [sample_filtered_df, nrA]

/-- Claim C1, amended.  In the Excel dashboard filter (`latest.py`) every
dimension is applied only when its selection is non-empty, so the all-empty
predicate set returns the full table unchanged; in the chunked-CSV
dashboard (`init.py`) an empty service-type selection leaves only the date
range, so whenever the range covers the whole table the result is again
the full table.  In `sample.py`, however, the category predicates are
applied unconditionally, so an empty selection matches nothing (see the
counterexample). -/
theorem empty_predicates_filter_identity (df : List LRow) (weekSel : List Nat)
    (df2 : List NormRow) (d0 d1 : ℤ)
    (hcov : ∀ r ∈ df2, d0 ≤ r.ticket_datetime ∧ r.ticket_datetime ≤ d1) :
    latest_filtered_df df [] weekSel [] [] [] = df ∧
    init_filtered_df df2 d0 d1 [] = df2 := by
  constructor
  · simp [latest_filtered_df, week_filter, filter_condition]
  · rw [init_filtered_df]
    simp only [List.isEmpty_nil, if_true]
    apply List.filter_eq_self.mpr
    intro a ha
    have h := hcov a ha
    simp [h.1, h.2]

/-- Claim C1, witness for the amended theorem. -/
theorem empty_predicates_filter_identity_witness :
    latest_filtered_df [lGood] [] [3] [] [] [] = [lGood] ∧
    init_filtered_df [nrA] 0 10 [] = [nrA] :=
  empty_predicates_filter_identity [lGood] [3] [nrA] 0 10 (by decide)

/-- Claim C2, counterexample.  In the chunked CSV loader a record with fare
100 and a *missing* travelled distance produces a NaN `revenue_per_km`:
`replace(0, 1)` substitutes the sentinel only for an exact zero, so the
claimed "zero or missing distance replaced by 1, hence never NaN" fails on
a missing distance. -/
theorem missing_distance_ratio_nan :
    (normalizeRow lkA parseA rMiss).map NormRow.revenue_per_km
      = some FloatVal.nan ∧
    FloatVal.nan ≠ FloatVal.fin 100 := by
  constructor
  · simp [normalizeRow, parseA, rMiss, rZero, lkA, fdiv, replaceZeroOne,
      FloatVal.ofOpt, FloatVal.div]
  · decide

/-- Claim C2, amended.  In the chunked CSV loader (`init.py`) a *zero*
distance is replaced by the sentinel 1 before dividing, so a record with
fare `f` and distance 0 gets `revenue_per_km = f` — finite, no exception,
no infinity, no NaN; a *missing* distance, however, is not replaced and
propagates to a missing (NaN) ratio.  In the Excel loader (`latest.py`) a
zero distance instead yields `Epkm = 0`, because the infinite raw ratio is
replaced by 0. -/
theorem ratio_denominator_sentinel (lk : Lookups) (p : String → Option ℤ)
    (r : RawRow) (t : ℤ) (f : ℚ)
    (hp : p (r.ticket_date ++ " " ++ r.ticket_time) = some t)
    (hf : r.px_total_amount = some f)
    (pd : String → Option DateParts) (x : XRow) (d : DateParts) (ta tn : ℚ)
    (hx1 : pd x.running_date = some d) (hx2 : x.total_amount = some ta)
    (hx3 : x.travel_distance = some 0) (hx4 : x.trip_number = some tn) :
    (r.travelled_KM = some 0 →
      (normalizeRow lk p r).map NormRow.revenue_per_km
        = some (FloatVal.fin f)) ∧
    (r.travelled_KM = none →
      (normalizeRow lk p r).map NormRow.revenue_per_km = some FloatVal.nan) ∧
    (cleanRow pd x).map LRow.Epkm = some 0 := by
  refine ⟨fun hd => ?_, fun hd => ?_, ?_⟩
  · simp [normalizeRow, hp, hd, hf, fdiv, replaceZeroOne, FloatVal.ofOpt,
      FloatVal.div]
  · simp [normalizeRow, hp, hd, hf, fdiv, replaceZeroOne, FloatVal.ofOpt,
      FloatVal.div]
  · have hfp : finPart (FloatVal.div (.fin ta) (.fin 0)) = 0 := by
      by_cases h0 : ta = 0
      · simp [FloatVal.div, h0, finPart]
      · by_cases hpos : 0 < ta
        · simp [FloatVal.div, h0, hpos, finPart]
        · simp [FloatVal.div, h0, hpos, finPart]
    simp [cleanRow, hx1, hx2, hx3, hx4, hfp]
    norm_num [round2]

/-- Claim C2, witness for the amended theorem. -/
theorem ratio_denominator_sentinel_witness :
    (normalizeRow lkA parseA rZero).map NormRow.revenue_per_km
      = some (FloatVal.fin 100) ∧
    (normalizeRow lkA parseA rMiss).map NormRow.revenue_per_km
      = some FloatVal.nan ∧
    (cleanRow parseD_A xZeroDist).map LRow.Epkm = some 0 :=
  ⟨(ratio_denominator_sentinel lkA parseA rZero 5 100 rfl rfl parseD_A
      xZeroDist dpJan5 100 1 rfl rfl rfl rfl).1 rfl,
   (ratio_denominator_sentinel lkA parseA rMiss 5 100 rfl rfl parseD_A
      xZeroDist dpJan5 100 1 rfl rfl rfl rfl).2.1 rfl,
   (ratio_denominator_sentinel lkA parseA rZero 5 100 rfl rfl parseD_A
      xZeroDist dpJan5 100 1 rfl rfl rfl rfl).2.2⟩

/-- Claim C3, counterexample.  `Series.map(dict)` yields a missing value for
a key absent from the dictionary and no `fillna("Unknown")` follows, so
the record with unknown ticket-type code `Z9` gets a missing
`ticket_type`, not the string sentinel `"Unknown"`; the record itself is
retained. -/
theorem unknown_code_missing_name :
    (normalizeRow lkA parseA rZ9).map NormRow.ticket_type = some none ∧
    (some (none : Option String)) ≠ some (some "Unknown") ∧
    (initChunk lkA parseA [rZ9]).toOption.map List.length = some 1 := by
  refine ⟨?_, by simp, ?_⟩
  · simp [normalizeRow, parseA, rZ9, rZero, lkA, List.lookup]
  · simp [initChunk, mapOpt, normalizeRow, parseA, rZ9, rZero, lkA,
      Except.toOption]

/-- Claim C3, amended.  A record whose ticket-type code has no entry in the
lookup table is normalized with a *missing* (null) resolved name — not the
string `"Unknown"` — and is retained in the output. -/
theorem unresolved_code_yields_missing (lk : Lookups)
    (p : String → Option ℤ) (r : RawRow) (t : ℤ)
    (hp : p (r.ticket_date ++ " " ++ r.ticket_time) = some t)
    (hk : List.lookup r.ticket_type_short_code lk.ticket_types = none) :
    (normalizeRow lk p r).map NormRow.ticket_type = some none ∧
    (normalizeRow lk p r).isSome = true := by
  simp [normalizeRow, hp, hk]

/-- Claim C3, witness for the amended theorem. -/
theorem unresolved_code_yields_missing_witness :
    (normalizeRow lkA parseA rZ9).map NormRow.ticket_type = some none ∧
    (normalizeRow lkA parseA rZ9).isSome = true :=
  unresolved_code_yields_missing lkA parseA rZ9 5 rfl rfl

/-- Claim C4, counterexample.  A record with fare 100, raw distance 10 and a
distance override of 20 gets `revenue_per_km = 10` (computed from the raw
distance) while its stored distance becomes 20; had the override been
applied first, the ratio would have been `100 / 20 = 5`. -/
theorem ratios_computed_before_override :
    (normalizeRow lkA parseA rOv).map NormRow.revenue_per_km
      = some (FloatVal.fin 10) ∧
    (normalizeRow lkA parseA rOv).map NormRow.travelled_KM
      = some (some 20) ∧
    FloatVal.fin 10 ≠ FloatVal.fin (100 / 20) := by
  refine ⟨?_, ?_, ?_⟩
  · simp [normalizeRow, parseA, rOv, rZero, lkA, fdiv, replaceZeroOne,
      FloatVal.ofOpt, FloatVal.div]
    norm_num
  · simp [normalizeRow, parseA, rOv, rZero, lkA, List.lookup, instBEqProd]
  · simp only [ne_eq, FloatVal.fin.injEq]
    norm_num

/-- Claim C4, amended.  `init.py` computes both derived ratios from the raw
distance (with the zero-to-one sentinel) *first*, and only afterwards
replaces the stored distance with the `(schedule_no, route_id)` override:
the ratios are computed from the raw distance, the stored distance is the
override value. -/
theorem override_applied_after_ratios (lk : Lookups)
    (p : String → Option ℤ) (r : RawRow) (t : ℤ) (v : ℚ)
    (hp : p (r.ticket_date ++ " " ++ r.ticket_time) = some t)
    (hk : List.lookup (r.schedule_no, r.route_id) lk.kms_mapping = some v) :
    (normalizeRow lk p r).map NormRow.travelled_KM = some (some v) ∧
    (normalizeRow lk p r).map NormRow.revenue_per_km
      = some (fdiv r.px_total_amount (replaceZeroOne r.travelled_KM)) ∧
    (normalizeRow lk p r).map NormRow.passengers_per_km
      = some (fdiv r.px_count (replaceZeroOne r.travelled_KM)) := by
  simp [normalizeRow, hp, hk]

/-- Claim C4, witness for the amended theorem. -/
theorem override_applied_after_ratios_witness :
    (normalizeRow lkA parseA rOv).map NormRow.travelled_KM
      = some (some 20) ∧
    (normalizeRow lkA parseA rOv).map NormRow.revenue_per_km
      = some (fdiv (some 100) (replaceZeroOne (some 10))) :=
  ⟨(override_applied_after_ratios lkA parseA rOv 5 20 rfl rfl).1,
   (override_applied_after_ratios lkA parseA rOv 5 20 rfl rfl).2.1⟩

/-- Claim C5, confirmed.  The zero-to-one sentinel lives only inside the
ratio computation: a record with zero raw distance and no override keeps
`travelled_KM = 0` in the stored table (available unmodified to sums and
aggregates), while its `revenue_per_km` is the fare divided by the
sentinel 1. -/
theorem stored_distance_preserved (lk : Lookups)
    (p : String → Option ℤ) (r : RawRow) (t : ℤ) (f : ℚ)
    (hp : p (r.ticket_date ++ " " ++ r.ticket_time) = some t)
    (hd : r.travelled_KM = some 0)
    (hk : List.lookup (r.schedule_no, r.route_id) lk.kms_mapping = none)
    (hf : r.px_total_amount = some f) :
    (normalizeRow lk p r).map NormRow.travelled_KM = some (some 0) ∧
    (normalizeRow lk p r).map NormRow.revenue_per_km
      = some (FloatVal.fin f) := by
  constructor
  · simp [normalizeRow, hp, hk, hd]
  · simp [normalizeRow, hp, hd, hf, fdiv, replaceZeroOne, FloatVal.ofOpt,
      FloatVal.div]

/-- Claim C5, witness. -/
theorem stored_distance_preserved_witness :
    (normalizeRow lkA parseA rZero).map NormRow.travelled_KM
      = some (some 0) ∧
    (normalizeRow lkA parseA rZero).map NormRow.revenue_per_km
      = some (FloatVal.fin 100) :=
  stored_distance_preserved lkA parseA rZero 5 100 rfl rfl rfl rfl

/-- Claim C6, counterexample.  In the chunked CSV loader, `pd.to_datetime`
is called without `errors="coerce"`, so one record with an unparseable
date aborts the whole chunk with an exception: the other records are *not*
loaded, contradicting "excluded and counted ... no exception is raised;
all other records of the chunk are still loaded".  The same chunk without
the bad record loads fine. -/
theorem bad_date_aborts_chunk :
    (initChunk lkA parseA [rZero, rBadDate]).toOption.isSome = false ∧
    (initChunk lkA parseA [rZero]).toOption.isSome = true := by
  constructor
  · simp [initChunk, mapOpt, normalizeRow, parseA, rZero, rBadDate, lkA,
      Except.toOption]
  · simp [initChunk, mapOpt, normalizeRow, parseA, rZero, lkA,
      Except.toOption]

/-- Claim C6, amended.  In the Excel loader (`latest.py`) a record whose
date fails to parse is dropped from the output without an exception and
the remaining records are kept — but no diagnostic count of the dropped
records is exposed to the caller (the function returns only the cleaned
table).  In the chunked CSV loader (`init.py`) an unparseable date instead
raises and aborts the whole chunk. -/
theorem invalid_date_record_handling (pd : String → Option DateParts)
    (xs ys : List XRow) (x : XRow) (hx : cleanRow pd x = none)
    (lk : Lookups) (p : String → Option ℤ) (rows : List RawRow)
    (r : RawRow) (hr : r ∈ rows)
    (hpr : p (r.ticket_date ++ " " ++ r.ticket_time) = none) :
    latestClean pd (xs ++ x :: ys) = latestClean pd (xs ++ ys) ∧
    initChunk lk p rows
      = Except.error "ParserError: unable to parse ticket_datetime" := by
  constructor
  · simp [latestClean, List.filterMap_append, List.filterMap_cons, hx]
  · have hnorm : normalizeRow lk p r = none := by
      simp [normalizeRow, hpr]
    have hnone : mapOpt (normalizeRow lk p) rows = none :=
      mapOpt_eq_none_of_mem _ rows r hr hnorm
    simp [initChunk, hnone]

/-- Claim C6, witness for the amended theorem. -/
theorem invalid_date_record_handling_witness :
    latestClean parseD_A ([xGood] ++ xBadDate :: [xGood])
      = latestClean parseD_A ([xGood] ++ [xGood]) ∧
    initChunk lkA parseA [rZero, rBadDate]
      = Except.error "ParserError: unable to parse ticket_datetime" :=
  invalid_date_record_handling parseD_A [xGood] [xGood] xBadDate rfl
    lkA parseA [rZero, rBadDate] rBadDate (by simp) rfl

/-- Claim C7, counterexample.  The filter of `init.py` performs no predicate
validation: with the date range `[2024-02-01, 2024-01-01]` (end before
start, day ordinals 32 and 1) over a non-empty table it silently returns
the empty subset, with no `InvalidPredicate` error — the function has no
error outcome at all. -/
theorem inverted_range_silently_empty :
    init_filtered_df [nrA] 32 1 [] = [] ∧
    init_filtered_df [nrA] 32 1 [] ≠ [nrA] := by
  constructor <;> simp [init_filtered_df, nrA]

/-- Claim C7, amended.  An inverted date range (end strictly before start)
is not rejected: the inclusive `between` is unsatisfiable, so the filter
returns the empty subset — indistinguishable from the normal
"no rows match" state — and never produces an error or swaps the
bounds. -/
theorem inverted_range_returns_empty (df : List NormRow) (d0 d1 : ℤ)
    (service_types : List String) (h : d1 < d0) :
    init_filtered_df df d0 d1 service_types = [] := by
  rw [init_filtered_df]
  split
  · apply List.filter_eq_nil_iff.mpr
    intro a _
    simp only [Bool.and_eq_true, decide_eq_true_eq, not_and]
    intro h1 h2
    omega
  · apply List.filter_eq_nil_iff.mpr
    intro a _
    simp only [Bool.and_eq_true, decide_eq_true_eq, not_and]
    intro hdate
    exfalso
    omega

/-- Claim C7, witness for the amended theorem. -/
theorem inverted_range_returns_empty_witness :
    (1 : ℤ) < 32 ∧ init_filtered_df [nrA] 32 1 ["EV INTERSTATE"] = [] :=
  ⟨by norm_num, inverted_range_returns_empty [nrA] 32 1 ["EV INTERSTATE"]
    (by norm_num)⟩

/-- Claim C8, counterexample.  The hourly aggregate rate of
`time_analytics.py` divides summed revenue by summed distance with no
guard: a subset whose only hour-0 group has revenue 5 and total distance 0
yields `+∞` for that group, not 0 — the infinity reaches the caller. -/
theorem zero_denominator_rate_infinite :
    time_epkm [tZero] = [(0, FloatVal.posInf)] ∧
    FloatVal.posInf ≠ FloatVal.fin 0 := by
  constructor
  · simp [time_epkm, hourKeys, sortNat, insertAsc, tZero, osum, FloatVal.div]
  · decide

/-- Claim C8, amended.  Only the explicitly guarded rate is safe: the
`efficiency_score` of `init.py` returns exactly 0 when the mean passenger
density is exactly zero, but the group-wise rates (`schedule_stats` EPKM in
`init.py`, the hourly EPKM of `time_analytics.py`) divide aggregates with
no guard, so a group with zero total distance and positive total revenue
yields `+∞`, which reaches the caller. -/
theorem rate_zero_denominator (rows : List NormRow)
    (hz : avg_passenger_km rows = FloatVal.fin 0)
    (trows : List TRow) (h : ℕ) (h0 : trows ≠ [])
    (hh : ∀ r ∈ trows, r.hour = h)
    (hd : osum (trows.map (fun r => r.travelled_KM)) = 0)
    (hr : 0 < osum (trows.map (fun r => r.px_total_amount))) :
    efficiency_score rows = FloatVal.fin 0 ∧
    time_epkm trows = [(h, FloatVal.posInf)] := by
  constructor
  · rw [efficiency_score, hz]
    simp [FloatVal.truthy]
  · have hmap : trows.map (fun r => r.hour)
        = List.replicate trows.length h := by
      apply List.eq_replicate_iff.mpr
      exact ⟨by simp, by simpa using hh⟩
    have hlen : trows.length - 1 + 1 = trows.length := by
      have := List.length_pos.mpr h0
      omega
    have hkeys : hourKeys trows = [h] := by
      rw [hourKeys, hmap, ← hlen, dedup_replicate_succ]
      rfl
    have hfil : trows.filter (fun r => r.hour == h) = trows := by
      apply List.filter_eq_self.mpr
      intro a ha
      simp [hh a ha]
    rw [time_epkm, hkeys]
    simp only [List.map_cons, List.map_nil, hfil]
    rw [hd]
    have hne : osum (trows.map (fun r => r.px_total_amount)) ≠ 0 := ne_of_gt hr
    simp [FloatVal.div, hne, hr]

/-- Claim C8, witness for the amended theorem. -/
theorem rate_zero_denominator_witness :
    efficiency_score [nrP0] = FloatVal.fin 0 ∧
    time_epkm [tZero] = [(0, FloatVal.posInf)] :=
  rate_zero_denominator [nrP0]
    (by simp [avg_passenger_km, fmean, nrP0, nrA, FloatVal.isPosInf,
      FloatVal.isNegInf])
    [tZero] 0 (by simp) (by simp [tZero]) (by simp [tZero, osum])
    (by simp [tZero, osum])

/-- Claim C9, counterexample.  The chunked CSV loader of `init.py` performs
no post-concatenation validation at all: a load whose only record has a
missing (non-numeric) fare — a failing "critical numeric column" check per
the claim — still returns a table (containing that record), instead of
halting in a failed state with a diagnostic. -/
theorem csv_loader_returns_unvalidated_table :
    (initLoad lkA parseA [[rNoFare]]).toOption.isSome = true ∧
    (initLoad lkA parseA [[rNoFare]]).toOption.map
      (List.map NormRow.px_total_amount) = some [none] := by
  have h : initLoad lkA parseA [[rNoFare]] = Except.ok [nrNoFare] := by
    simp [initLoad, mapOpt, normalizeRow, parseA, rNoFare, rZero, lkA,
      nrNoFare, List.lookup, instBEqProd, fdiv, replaceZeroOne,
      FloatVal.ofOpt, FloatVal.div]
    norm_num
  rw [h]
  constructor
  · rfl
  · simp [Except.toOption, nrNoFare]

/-- Claim C9, amended.  The Excel loader (`latest.py`) coerces the critical
numeric columns, drops every uncoercible row, and halts with the
diagnostic "No valid data remaining after processing" exactly when the
cleaned table is empty — a returned table is never empty.  The chunked
CSV loader (`init.py`) performs no validation: whenever all dates parse
and the reader yields at least one chunk, it returns the concatenated
table as-is, with no emptiness or numeric check on its contents. -/
theorem load_validation (pd : String → Option DateParts) (rows : List XRow)
    (t : List LRow) (hok : latestLoad pd rows = Except.ok t)
    (pd2 : String → Option DateParts) (rows2 : List XRow)
    (he : latestClean pd2 rows2 = [])
    (lk : Lookups) (p : String → Option ℤ) (chunks : List (List RawRow))
    (out : List NormRow) (hch : chunks ≠ [])
    (hall : mapOpt (normalizeRow lk p) chunks.flatten = some out) :
    t ≠ [] ∧
    latestLoad pd2 rows2
      = Except.error "No valid data remaining after processing" ∧
    initLoad lk p chunks = Except.ok out := by
  refine ⟨?_, ?_, ?_⟩
  · rw [latestLoad] at hok
    by_cases hc : (latestClean pd rows).isEmpty
    · simp [hc] at hok
    · simp only [hc, if_false] at hok
      cases hok
      exact fun hnil => hc (by simp [hnil])
  · rw [latestLoad, he]
    rfl
  · rw [initLoad]
    have : chunks.isEmpty = false := by
      cases chunks with
      | nil => exact absurd rfl hch
      | cons c cs => rfl
    rw [this]
    simp [hall]

/-- Claim C9, witness for the amended theorem. -/
theorem load_validation_witness :
    ([lGood] : List LRow) ≠ [] ∧
    latestLoad parseD_A [xBadDate]
      = Except.error "No valid data remaining after processing" ∧
    initLoad lkA parseA [[rNoFare]] = Except.ok [nrNoFare] :=
  load_validation parseD_A [xGood] [lGood]
    (by simp [latestLoad, latestClean, cleanRow, parseD_A, xGood, dpJan5,
        lGood, monthName, dayName, FloatVal.div, finPart]
        norm_num [round2])
    parseD_A [xBadDate] (by simp [latestClean, cleanRow, parseD_A, xBadDate,
      xGood])
    lkA parseA [[rNoFare]] [nrNoFare] (by simp)
    (by simp [mapOpt, normalizeRow, parseA, rNoFare, rZero, lkA, nrNoFare,
        List.lookup, instBEqProd, fdiv, replaceZeroOne, FloatVal.ofOpt,
        FloatVal.div]
        norm_num)

/-- Claim C10, confirmed.  The week-of-month drill-down is constructed only
when exactly one month is selected: for every predicate set selecting zero
or several months, `week_filter` stays `None`, the week constraint is
skipped (`if week_filter is not None and week_filter:`), and the working
subset is the one computed from the remaining dimensions alone. -/
theorem week_filter_requires_single_month (df : List LRow)
    (month_filter : List String) (weekSel : List Nat)
    (day_filter service_filter route_filter : List String)
    (h : month_filter.length ≠ 1) :
    week_filter df month_filter weekSel = none ∧
    latest_filtered_df df month_filter weekSel day_filter service_filter
        route_filter
      = df.filter (filter_condition month_filter none day_filter
          service_filter route_filter) := by
  have hw : week_filter df month_filter weekSel = none := by
    have hb : (month_filter.length == 1) = false := by
      simpa using h
    rw [week_filter, hb]
    simp only [Bool.false_and, Bool.false_eq_true, if_false]
    intro m hm
    subst hm
    simp at h
  exact ⟨hw, by rw [latest_filtered_df, hw]⟩

/-- Claim C10, witness. -/
theorem week_filter_requires_single_month_witness :
    week_filter [lGood] [] [3] = none ∧
    latest_filtered_df [lGood] [] [3] [] [] []
      = List.filter (filter_condition [] none [] [] []) [lGood] :=
  week_filter_requires_single_month [lGood] [] [3] [] [] [] (by simp)

end Dash
